import Mathlib

/-!
Shallow embedding of the organization onboarding & compliance core of the
`levitate` repository: the CNPJ (tax-ID) checksum validator, the NGO
registration workflow of `AdminService`, the audit/verification engine, and
the sliding-window rate limiter middleware.

Machine integers are modelled as `Nat`/`Int` (no overflow is reachable for
the collection sizes involved), wall-clock instants (`time.Time`) as `Int`
(Unix-style instants, threaded explicitly where the Go code calls
`time.Now()`), and the pseudo-random generator `rand.Intn` as an explicit
stream `rand : Nat → Nat` whose `i`-th draw bounded by `n` is `rand i % n`.
Fallible Go functions returning `(value, error)` become
`State × Except String value`.
-/

set_option autoImplicit false

namespace Levitate

/-! ## Tax-ID (CNPJ) checksum validator, from `validateCNPJFormat` -/

/-- The digit characters of a string, as numeric values: the Go code first
strips every non-digit byte (`regexp [^0-9]` replaced by the empty string)
and then works with `cnpj[i] - '0'`. -/
def cnpjDigits (cnpj : String) : List Nat :=
  (cnpj.data.filter Char.isDigit).map (fun c => c.toNat - '0'.toNat)

/-- Weights of the first verification digit. -/
def weight1 : List Nat := [5, 4, 3, 2, 9, 8, 7, 6, 5, 4, 3, 2]

/-- Weights of the second verification digit. -/
def weight2 : List Nat := [6, 5, 4, 3, 2, 9, 8, 7, 6, 5, 4, 3, 2]

/-- Core of `validateCNPJFormat`, acting on the stripped digit list.  The
`for i := 0; i < 12; i++` accumulation loops become folds over
`List.range`; `allEqual` checks indices `1..13` against index `0`. -/
def cnpjCheck (ds : List Nat) : Bool × String :=
  if ds.length ≠ 14 then
    (false, "CNPJ deve conter 14 dígitos")
  else if (ds.drop 1).all (fun d => d = ds.headD 0) then
    (false, "CNPJ inválido: todos os dígitos são iguais")
  else
    let sum1 := (List.range 12).foldl (fun acc i => acc + ds.getD i 0 * weight1.getD i 0) 0
    let verificationDigit1 := if sum1 % 11 ≥ 2 then 11 - sum1 % 11 else 0
    if ds.getD 12 0 ≠ verificationDigit1 then
      (false, "CNPJ inválido: primeiro dígito verificador incorreto")
    else
      let sum2 := (List.range 13).foldl (fun acc i => acc + ds.getD i 0 * weight2.getD i 0) 0
      let verificationDigit2 := if sum2 % 11 ≥ 2 then 11 - sum2 % 11 else 0
      if ds.getD 13 0 ≠ verificationDigit2 then
        (false, "CNPJ inválido: segundo dígito verificador incorreto")
      else
        (true, "CNPJ válido")

/-- `AdminService.validateCNPJFormat` (the receiver is unused in Go). -/
def validateCNPJFormat (cnpj : String) : Bool × String :=
  cnpjCheck (cnpjDigits cnpj)

/-! ## Data model, from `models.go`

`time.Time` fields become `Int` instants; `float64` amount fields of the
donation/expense records are omitted (they are never read by any function
modelled here). -/

/-- `NGORegistrationStatus`, with its four string constants. -/
inductive NGOStatus where
  | pending
  | validating
  | rejected
  | approved
  deriving DecidableEq, Repr, Inhabited

/-- `string(status)`: the underlying string value of each constant. -/
def NGOStatus.str : NGOStatus → String
  | .pending => "pendente"
  | .validating => "validando"
  | .rejected => "rejeitado"
  | .approved => "aprovado"

/-- `models.NGORegistration`. -/
structure NGORegistration where
  id : Nat
  name : String
  description : String
  category : String
  cnpj : String
  cnpjValid : Bool
  cnpjValidationMsg : String
  email : String
  phone : String
  address : String
  responsibleID : Nat
  logoURL : String
  documentsIPFS : String
  blockchainRef : String
  status : NGOStatus
  adminComments : String
  createdAt : Int
  updatedAt : Int
  deriving DecidableEq, Repr, Inhabited

/-- `models.NGO`. -/
structure NGO where
  id : Nat
  name : String
  description : String
  category : String
  cnpj : String
  email : String
  phone : String
  address : String
  logoURL : String
  documentsIPFS : String
  blockchainRef : String
  responsibleID : Nat
  createdAt : Int
  updatedAt : Int
  deriving DecidableEq, Repr, Inhabited

/-- `models.NGORegistrationRequest`. -/
structure NGORegistrationRequest where
  name : String
  description : String
  category : String
  cnpj : String
  email : String
  phone : String
  address : String
  responsibleID : Nat
  logoURL : String
  deriving DecidableEq, Repr, Inhabited

/-- `models.AuditLog`.  The boolean/list verification fields are never set
by `logAuditAction` and keep their Go zero values. -/
structure AuditLog where
  id : Nat
  adminID : Nat
  action : String
  entityType : String
  entityID : Nat
  previousState : String
  newState : String
  comments : String
  blockchainValid : Bool
  ipfsValid : Bool
  validationErrors : List String
  createdAt : Int
  deriving DecidableEq, Repr, Inhabited

/-- `models.AuditRequest`. -/
structure AuditRequest where
  entityType : String
  entityID : Nat
  deriving DecidableEq, Repr, Inhabited

/-- `models.AuditResult`. -/
structure AuditResult where
  entityType : String
  entityID : Nat
  blockchainValid : Bool
  ipfsValid : Bool
  blockchainRef : String
  ipfsRef : String
  validationDate : Int
  validationErrors : List String
  deriving DecidableEq, Repr, Inhabited

/-- `models.Donation`, restricted to the fields the audit path reads
(the `float64` amount is omitted). -/
structure Donation where
  id : Nat
  donorID : Nat
  ngoID : Nat
  status : String
  transactionHash : String
  deriving DecidableEq, Repr, Inhabited

/-- `models.DonationReceipt`, restricted to the fields the audit path reads. -/
structure DonationReceipt where
  id : Nat
  donationID : Nat
  ipfsHash : String
  deriving DecidableEq, Repr, Inhabited

/-- `models.Expense`, restricted to the fields the audit path reads. -/
structure Expense where
  id : Nat
  donationID : Nat
  ngoID : Nat
  receiptIPFS : String
  blockchainRef : String
  status : String
  deriving DecidableEq, Repr, Inhabited

/-! ## Mock reference generators, from `utils.go`

`rand.Intn(n)` on the `i`-th draw is modelled as `rand i % n`. -/

/-- The hexadecimal charset of `generateMockTransactionHash`. -/
def txCharset : List Char := "abcdef0123456789".data

/-- `generateMockTransactionHash`: `"0x"` followed by 64 draws from the
16-character hexadecimal charset. -/
def generateMockTransactionHash (rand : Nat → Nat) : String :=
  String.mk ('0' :: 'x' :: (List.range 64).map (fun i => txCharset.getD (rand i % 16) 'a'))

/-- The alphanumeric charset of `generateMockHash`. -/
def mockCharset : List Char :=
  "abcdefghijklmnopqrstuvwxyzABCDEFGHIJKLMNOPQRSTUVWXYZ0123456789".data

/-- `generateMockHash(length)`: `length` draws from the 62-character
alphanumeric charset. -/
def generateMockHash (rand : Nat → Nat) (length : Nat) : String :=
  String.mk ((List.range length).map (fun i => mockCharset.getD (rand i % 62) 'a'))

/-! ## AdminService state and operations, from `admin_service.go`

The struct holds its own collections plus the collections of the injected
`DonationService` and `ExpenseService` that the admin operations read or
write (`donationService.ngos`, `donationService.donations`,
`donationService.receipts`, `expenseService.expenses`). -/

/-- The mutable state of `AdminService` (including the referenced parts of
the donation and expense services). -/
structure AdminService where
  donations : List Donation
  ngos : List NGO
  ngoRegistrations : List NGORegistration
  auditLogs : List AuditLog
  donationServiceNgos : List NGO
  donationServiceDonations : List Donation
  donationServiceReceipts : List DonationReceipt
  expenseServiceExpenses : List Expense
  deriving Repr, Inhabited

/-- `NewAdminService` with empty collaborating services. -/
def NewAdminService : AdminService :=
  { donations := []
    ngos := []
    ngoRegistrations := []
    auditLogs := []
    donationServiceNgos := []
    donationServiceDonations := []
    donationServiceReceipts := []
    expenseServiceExpenses := [] }

/-- The `for i, reg := range s.ngoRegistrations { if reg.ID == id { ... } }`
search pattern: first matching record together with its index. -/
def findRegWithIdx (regs : List NGORegistration) (registrationID : Nat) :
    Option (NGORegistration × Nat) :=
  match regs with
  | [] => none
  | r :: rs =>
      if r.id = registrationID then some (r, 0)
      else (findRegWithIdx rs registrationID).map (fun p => (p.1, p.2 + 1))

/-- `logAuditAction`: appends one `AuditLog` whose id is the new length and
whose comment duplicates the new state. -/
def logAuditAction (s : AdminService) (adminID : Nat) (action : String)
    (entityType : String) (entityID : Nat) (previousState : String)
    (newState : String) (now : Int) : AdminService :=
  { s with auditLogs := s.auditLogs ++
      [{ id := s.auditLogs.length + 1
         adminID := adminID
         action := action
         entityType := entityType
         entityID := entityID
         previousState := previousState
         newState := newState
         comments := newState
         blockchainValid := false
         ipfsValid := false
         validationErrors := []
         createdAt := now }] }

/-- `RegisterNGO`. -/
def RegisterNGO (s : AdminService) (req : NGORegistrationRequest) (now : Int) :
    AdminService × Except String NGORegistration :=
  if s.ngoRegistrations.any (fun reg => reg.cnpj = req.cnpj) then
    (s, .error "CNPJ já registrado no sistema")
  else if s.ngos.any (fun ngo => ngo.cnpj = req.cnpj) then
    (s, .error "CNPJ já pertence a uma ONG ativa")
  else
    let v := validateCNPJFormat req.cnpj
    let registrationID := s.ngoRegistrations.length + 1
    let registration : NGORegistration :=
      { id := registrationID
        name := req.name
        description := req.description
        category := req.category
        cnpj := req.cnpj
        cnpjValid := v.1
        cnpjValidationMsg := v.2
        email := req.email
        phone := req.phone
        address := req.address
        responsibleID := req.responsibleID
        logoURL := req.logoURL
        documentsIPFS := ""
        blockchainRef := ""
        status := .pending
        adminComments := ""
        createdAt := now
        updatedAt := now }
    let s1 := { s with ngoRegistrations := s.ngoRegistrations ++ [registration] }
    let s2 := logAuditAction s1 0 "ngo_registration_created" "ngo_registration"
      registrationID ""
      ("Registro de ONG solicitado: " ++ req.name ++ " (CNPJ: " ++ req.cnpj ++ ")") now
    (s2, .ok registration)

/-- `ValidateCNPJOnline`. -/
def ValidateCNPJOnline (s : AdminService) (registrationID : Nat) (now : Int) :
    AdminService × Except String NGORegistration :=
  match findRegWithIdx s.ngoRegistrations registrationID with
  | none => (s, .error "registro de ONG não encontrado")
  | some (registration, index) =>
      if registration.cnpjValid then
        let updated := { registration with
          cnpjValid := true
          cnpjValidationMsg := "CNPJ verificado online e válido"
          status := NGOStatus.validating
          updatedAt := now }
        let s1 := { s with ngoRegistrations := s.ngoRegistrations.set index updated }
        let s2 := logAuditAction s1 0 "cnpj_validated" "ngo_registration" registrationID
          registration.status.str NGOStatus.validating.str now
        (s2, .ok updated)
      else
        (s, .error registration.cnpjValidationMsg)

/-- `UploadNGODocuments`.  The uploaded bytes are received but never read by
the Go code; the IPFS reference is minted from the mock generator. -/
def UploadNGODocuments (s : AdminService) (registrationID : Nat)
    (fileContent : List Nat) (rand : Nat → Nat) (now : Int) :
    AdminService × Except String NGORegistration :=
  match findRegWithIdx s.ngoRegistrations registrationID with
  | none => (s, .error "registro de ONG não encontrado")
  | some (registration, index) =>
      if !registration.cnpjValid then
        (s, .error "CNPJ deve ser validado antes do upload de documentos")
      else
        let _ := fileContent
        let ipfsHash := "Qm" ++ generateMockHash rand 46
        let updated := { registration with documentsIPFS := ipfsHash, updatedAt := now }
        let s1 := { s with ngoRegistrations := s.ngoRegistrations.set index updated }
        let s2 := logAuditAction s1 0 "documents_uploaded" "ngo_registration" registrationID
          "" ("Documentos enviados para IPFS: " ++ ipfsHash) now
        (s2, .ok updated)

/-- `ApproveNGO`. -/
def ApproveNGO (s : AdminService) (registrationID : Nat) (adminID : Nat)
    (comments : String) (rand : Nat → Nat) (now : Int) :
    AdminService × Except String NGO :=
  match findRegWithIdx s.ngoRegistrations registrationID with
  | none => (s, .error "registro de ONG não encontrado")
  | some (registration, regIndex) =>
      if !registration.cnpjValid then
        (s, .error "CNPJ não foi validado")
      else if registration.documentsIPFS = "" then
        (s, .error "documentos não foram enviados")
      else
        let blockchainRef := generateMockTransactionHash rand
        let updated := { registration with
          blockchainRef := blockchainRef
          status := NGOStatus.approved
          adminComments := comments
          updatedAt := now }
        let ngoID := s.ngos.length + 1
        let ngo : NGO :=
          { id := ngoID
            name := registration.name
            description := registration.description
            category := registration.category
            cnpj := registration.cnpj
            email := registration.email
            phone := registration.phone
            address := registration.address
            logoURL := registration.logoURL
            documentsIPFS := registration.documentsIPFS
            blockchainRef := blockchainRef
            responsibleID := registration.responsibleID
            createdAt := now
            updatedAt := now }
        let s1 := { s with
          ngoRegistrations := s.ngoRegistrations.set regIndex updated
          ngos := s.ngos ++ [ngo]
          donationServiceNgos := s.donationServiceNgos ++ [ngo] }
        let s2 := logAuditAction s1 adminID "ngo_approved" "ngo" ngoID
          NGOStatus.validating.str NGOStatus.approved.str now
        (s2, .ok ngo)

/-- `RejectNGO`. -/
def RejectNGO (s : AdminService) (registrationID : Nat) (adminID : Nat)
    (reason : String) (now : Int) : AdminService × Except String NGORegistration :=
  match findRegWithIdx s.ngoRegistrations registrationID with
  | none => (s, .error "registro de ONG não encontrado")
  | some (registration, index) =>
      let updated := { registration with
        status := NGOStatus.rejected
        adminComments := reason
        updatedAt := now }
      let s1 := { s with ngoRegistrations := s.ngoRegistrations.set index updated }
      let s2 := logAuditAction s1 adminID "ngo_rejected" "ngo_registration" registrationID
        registration.status.str NGOStatus.rejected.str now
      (s2, .ok updated)

/-- `GetNGORegistrationByID`. -/
def GetNGORegistrationByID (s : AdminService) (registrationID : Nat) :
    Except String NGORegistration :=
  match s.ngoRegistrations.find? (fun reg => reg.id = registrationID) with
  | some reg => .ok reg
  | none => .error "registro de ONG não encontrado"

/-! ## Audit / verification engine, from `admin_service.go` -/

/-- A character of the class `[0-9a-fA-F]`. -/
def isHexChar (c : Char) : Bool :=
  ('0' ≤ c && c ≤ '9') || ('a' ≤ c && c ≤ 'f') || ('A' ≤ c && c ≤ 'F')

/-- `verifyBlockchainReference`: non-empty, `0x` prefix, total length 66,
and the final regexp `^0x[0-9a-fA-F]{64}$` (the byte-wise `reference[:2]`
comparison is the character-wise one, all characters involved being
single-byte). -/
def verifyBlockchainReference (reference : String) : Bool :=
  if reference = "" then false
  else if reference.length < 2 || reference.data.take 2 ≠ ['0', 'x'] then false
  else if reference.length ≠ 66 then false
  else
    reference.data.take 2 = ['0', 'x'] && (reference.data.drop 2).length = 64
      && (reference.data.drop 2).all isHexChar

/-- `verifyIPFSReference`: non-empty, `Qm` prefix, length at least 46. -/
def verifyIPFSReference (reference : String) : Bool :=
  if reference = "" then false
  else if reference.length < 2 || reference.data.take 2 ≠ ['Q', 'm'] then false
  else if reference.length < 46 then false
  else true

/-- `AuditEntity`.  Resolves the entity's stored references by type, checks
both reference formats, and appends one audit log entry on every
non-erroring path.  On the error paths the Go code returns the partially
filled result together with a non-nil error; only the error is modelled. -/
def AuditEntity (s : AdminService) (req : AuditRequest) (adminID : Nat)
    (now : Int) : AdminService × Except String AuditResult :=
  let refsOf : Except String (String × String) :=
    if req.entityType = "ngo" then
      match s.ngos.find? (fun ngo => ngo.id = req.entityID) with
      | some ngo => .ok (ngo.blockchainRef, ngo.documentsIPFS)
      | none => .error "ONG não encontrada"
    else if req.entityType = "donation" then
      match s.donationServiceDonations.find? (fun d => d.id = req.entityID) with
      | some donation =>
          let ipfsRef :=
            match s.donationServiceReceipts.find? (fun r => r.donationID = req.entityID) with
            | some receipt => receipt.ipfsHash
            | none => ""
          .ok (donation.transactionHash, ipfsRef)
      | none => .error "doação não encontrada"
    else if req.entityType = "expense" then
      match s.expenseServiceExpenses.find? (fun e => e.id = req.entityID) with
      | some expense => .ok (expense.blockchainRef, expense.receiptIPFS)
      | none => .error "despesa não encontrada"
    else
      .error ("tipo de entidade desconhecido: " ++ req.entityType)
  match refsOf with
  | .error e => (s, .error e)
  | .ok (blockchainRef, ipfsRef) =>
      let blockchainValid := verifyBlockchainReference blockchainRef
      let ipfsValid := verifyIPFSReference ipfsRef
      let validationErrors :=
        (if blockchainValid then [] else ["Referência na blockchain inválida ou não encontrada"])
          ++ (if ipfsValid then [] else ["Referência no IPFS inválida ou não encontrada"])
      let result : AuditResult :=
        { entityType := req.entityType
          entityID := req.entityID
          blockchainValid := blockchainValid
          ipfsValid := ipfsValid
          blockchainRef := blockchainRef
          ipfsRef := ipfsRef
          validationDate := now
          validationErrors := validationErrors }
      let comments :=
        if validationErrors.length > 0 then
          "Auditoria com erros: " ++ toString validationErrors
        else
          "Auditoria concluída com sucesso"
      let s1 := logAuditAction s adminID "audit_performed" req.entityType req.entityID
        "" comments now
      (s1, .ok result)

/-- `GetAuditLogsByEntityType`. -/
def GetAuditLogsByEntityType (s : AdminService) (entityType : String) : List AuditLog :=
  s.auditLogs.filter (fun log => log.entityType = entityType)

/-! ## Sliding-window rate limiter, from the `middleware` rate-limiter file

The Go `map[string][]time.Time` becomes a function map to `Option`
(distinguishing an absent key from a present empty slice, as the Go code
does); `time.Time` becomes an `Int` instant and `t.After(v)` becomes
`v < t`. -/

/-- The middleware's observable outcome: pass-through when disabled,
rejection with the three rate headers, or admission with two. -/
inductive RateOutcome where
  | passthrough
  | rejected (limit : Nat) (remaining : Nat) (resetAt : Int)
  | accepted (limit : Nat) (remaining : Int)
  deriving DecidableEq, Repr, Inhabited

/-- The `RateLimiter` struct. -/
structure RateLimiter where
  ipLimits : String → Option (List Int)
  maxRequests : Nat
  windowLength : Int
  enabled : Bool

/-- `NewRateLimiter`. -/
def NewRateLimiter (maxRequests : Nat) (windowLength : Int) : RateLimiter :=
  { ipLimits := fun _ => none
    maxRequests := maxRequests
    windowLength := windowLength
    enabled := true }

/-- One evaluation of the `RateLimit` middleware for caller `ip` at instant
`now`: prune, decide, and update the per-caller timestamp slice. -/
def RateLimit (rl : RateLimiter) (ip : String) (now : Int) :
    RateLimiter × RateOutcome :=
  if !rl.enabled then
    (rl, .passthrough)
  else
    let validTime := now - rl.windowLength
    let validRequests :=
      match rl.ipLimits ip with
      | some ts => ts.filter (fun t => validTime < t)
      | none => []
    if validRequests.length ≥ rl.maxRequests then
      let rl1 := { rl with ipLimits := fun k =>
        if k = ip then some validRequests else rl.ipLimits k }
      (rl1, .rejected rl.maxRequests 0 (validTime + rl.windowLength))
    else
      let newRequests := validRequests ++ [now]
      let rl1 := { rl with ipLimits := fun k =>
        if k = ip then some newRequests else rl.ipLimits k }
      (rl1, .accepted rl.maxRequests ((rl.maxRequests : Int) - (newRequests.length : Int)))

/-! ## Specification-side formulations

These restate, independently of the code above, what the natural-language
specification says the checksum is; the theorems below compare them with
the embedded code. -/

/-- Spec formulation: "weighted sum of digits 0–11 using weights
[5,4,3,2,9,8,7,6,5,4,3,2]; remainder = sum mod 11; check = 0 if
remainder < 2 else 11 − remainder". -/
def specCheckDigit1 (ds : List Nat) : Nat :=
  let sum := 5 * ds.getD 0 0 + 4 * ds.getD 1 0 + 3 * ds.getD 2 0 + 2 * ds.getD 3 0
    + 9 * ds.getD 4 0 + 8 * ds.getD 5 0 + 7 * ds.getD 6 0 + 6 * ds.getD 7 0
    + 5 * ds.getD 8 0 + 4 * ds.getD 9 0 + 3 * ds.getD 10 0 + 2 * ds.getD 11 0
  if sum % 11 < 2 then 0 else 11 - sum % 11

/-- Spec formulation: the second check digit, "computed the same way from
digits 0–12 with weights [6,5,4,3,2,9,8,7,6,5,4,3,2]". -/
def specCheckDigit2 (ds : List Nat) : Nat :=
  let sum := 6 * ds.getD 0 0 + 5 * ds.getD 1 0 + 4 * ds.getD 2 0 + 3 * ds.getD 3 0
    + 2 * ds.getD 4 0 + 9 * ds.getD 5 0 + 8 * ds.getD 6 0 + 7 * ds.getD 7 0
    + 6 * ds.getD 8 0 + 5 * ds.getD 9 0 + 4 * ds.getD 10 0 + 3 * ds.getD 11 0
    + 2 * ds.getD 12 0
  if sum % 11 < 2 then 0 else 11 - sum % 11

/-- Spec formulation: "all 14 digits are equal". -/
def specAllEqual (ds : List Nat) : Bool :=
  ds.all (fun d => d = ds.headD 0)

/-- The states of the registration collection reachable from a fresh
service by any sequence of the five workflow operations, with arbitrary
arguments, instants and random streams. -/
inductive Reachable : AdminService → Prop where
  | init : Reachable NewAdminService
  | register (s : AdminService) (req : NGORegistrationRequest) (now : Int) :
      Reachable s → Reachable (RegisterNGO s req now).1
  | validate (s : AdminService) (rid : Nat) (now : Int) :
      Reachable s → Reachable (ValidateCNPJOnline s rid now).1
  | upload (s : AdminService) (rid : Nat) (file : List Nat) (rand : Nat → Nat) (now : Int) :
      Reachable s → Reachable (UploadNGODocuments s rid file rand now).1
  | approve (s : AdminService) (rid : Nat) (aid : Nat) (c : String) (rand : Nat → Nat) (now : Int) :
      Reachable s → Reachable (ApproveNGO s rid aid c rand now).1
  | reject (s : AdminService) (rid : Nat) (aid : Nat) (r : String) (now : Int) :
      Reachable s → Reachable (RejectNGO s rid aid r now).1

/-! ## A concrete workflow run

One registration carried through register → validate online → upload →
approve → reject, used to exhibit concrete behaviour of the embedded
operations.  `11222333000181` is a checksum-correct CNPJ. -/

/-- A concrete registration request with a checksum-correct CNPJ. -/
def demoRequest : NGORegistrationRequest :=
  { name := "ONG Esperança"
    description := "Ajuda comunitária"
    category := "Educação"
    cnpj := "11222333000181"
    email := "contato@esperanca.org"
    phone := "11999990000"
    address := "Rua A, 1"
    responsibleID := 1
    logoURL := "" }

/-- A deterministic stand-in for the random stream (every draw is 0). -/
def zeroRand : Nat → Nat := fun _ => 0

/-- State after `RegisterNGO`. -/
def demoS1 : AdminService := (RegisterNGO NewAdminService demoRequest 0).1

/-- State after `ValidateCNPJOnline`. -/
def demoS2 : AdminService := (ValidateCNPJOnline demoS1 1 1).1

/-- State after `UploadNGODocuments`. -/
def demoS3 : AdminService := (UploadNGODocuments demoS2 1 [] zeroRand 2).1

/-- State after `ApproveNGO`. -/
def demoS4 : AdminService := (ApproveNGO demoS3 1 7 "tudo certo" zeroRand 3).1

/-- State after `RejectNGO` applied to the already-approved registration. -/
def demoS5 : AdminService := (RejectNGO demoS4 1 7 "revogado" 4).1

/-- A default registration record, used as the `List.getD`/`List.headD`
fallback in statements about concrete lists. -/
def emptyReg : NGORegistration := default

/-- The stored registration record right after the document upload step. -/
def demoReg3 : NGORegistration := demoS3.ngoRegistrations.headD emptyReg

/-- The stored registration record right after the approval step. -/
def demoReg4 : NGORegistration := demoS4.ngoRegistrations.headD emptyReg

/-- An organization whose stored ledger reference is malformed (no `0x`
prefix, wrong length). -/
def badNGO : NGO :=
  { id := 1, name := "ONG Fantasma", description := "", category := "", cnpj := "",
    email := "", phone := "", address := "", logoURL := "", documentsIPFS := "",
    blockchainRef := "deadbeef", responsibleID := 0, createdAt := 0, updatedAt := 0 }

/-- A service state holding only `badNGO`. -/
def badAuditState : AdminService := { NewAdminService with ngos := [badNGO] }

/-! ## A concrete rate-limiter run: N = 3, W = 60, one caller -/

/-- A fresh limiter with limit 3 per 60-unit window. -/
def rlDemo0 : RateLimiter := NewRateLimiter 3 60

/-- First call, at instant 0. -/
def rlStep1 : RateLimiter × RateOutcome := RateLimit rlDemo0 "10.0.0.1" 0

/-- Second call, at instant 10. -/
def rlStep2 : RateLimiter × RateOutcome := RateLimit rlStep1.1 "10.0.0.1" 10

/-- Third call, at instant 20. -/
def rlStep3 : RateLimiter × RateOutcome := RateLimit rlStep2.1 "10.0.0.1" 20

/-- Fourth call, at instant 30, inside the same window. -/
def rlStep4 : RateLimiter × RateOutcome := RateLimit rlStep3.1 "10.0.0.1" 30

/-- Fifth call, at instant 100, after the window has fully elapsed. -/
def rlStep5 : RateLimiter × RateOutcome := RateLimit rlStep4.1 "10.0.0.1" 100

/-! ## Theorems -/

/-- The code's all-equal scan (indices `1..13` against index `0`) agrees
with the spec's "all 14 digits are equal". -/
theorem allEqual_drop_one (ds : List Nat) :
    ((ds.drop 1).all (fun d => d = ds.headD 0)) = specAllEqual ds := by
  cases ds with
  | nil => rfl
  | cons d ds => simp [specAllEqual]

/-- The code's first accumulation loop computes the spec's weighted sum of
digits 0–11. -/
theorem sum1_eq (ds : List Nat) :
    (List.range 12).foldl (fun acc i => acc + ds.getD i 0 * weight1.getD i 0) 0 =
      5 * ds.getD 0 0 + 4 * ds.getD 1 0 + 3 * ds.getD 2 0 + 2 * ds.getD 3 0
        + 9 * ds.getD 4 0 + 8 * ds.getD 5 0 + 7 * ds.getD 6 0 + 6 * ds.getD 7 0
        + 5 * ds.getD 8 0 + 4 * ds.getD 9 0 + 3 * ds.getD 10 0 + 2 * ds.getD 11 0 := by
  have h : List.range 12 = [0, 1, 2, 3, 4, 5, 6, 7, 8, 9, 10, 11] := rfl
  rw [h]
  simp [weight1, List.getD]
  ring

/-- The code's second accumulation loop computes the spec's weighted sum of
digits 0–12. -/
theorem sum2_eq (ds : List Nat) :
    (List.range 13).foldl (fun acc i => acc + ds.getD i 0 * weight2.getD i 0) 0 =
      6 * ds.getD 0 0 + 5 * ds.getD 1 0 + 4 * ds.getD 2 0 + 3 * ds.getD 3 0
        + 2 * ds.getD 4 0 + 9 * ds.getD 5 0 + 8 * ds.getD 6 0 + 7 * ds.getD 7 0
        + 6 * ds.getD 8 0 + 5 * ds.getD 9 0 + 4 * ds.getD 10 0 + 3 * ds.getD 11 0
        + 2 * ds.getD 12 0 := by
  have h : List.range 13 = [0, 1, 2, 3, 4, 5, 6, 7, 8, 9, 10, 11, 12] := rfl
  rw [h]
  simp [weight2, List.getD]
  ring

/-- The code's check-digit expression (guard written `remainder ≥ 2`)
agrees with the spec's (guard written `remainder < 2`). -/
theorem checkIf_eq (r : Nat) :
    (if r ≥ 2 then 11 - r else 0) = (if r < 2 then 0 else 11 - r) := by
  split_ifs <;> omega

/-- The digit-list core of the validator, rewritten into the spec's
decision list: length, all-equal, first check digit, second check digit. -/
theorem cnpjCheck_eq_specForm (ds : List Nat) :
    cnpjCheck ds =
      (if ds.length ≠ 14 then (false, "CNPJ deve conter 14 dígitos")
       else if specAllEqual ds then (false, "CNPJ inválido: todos os dígitos são iguais")
       else if ds.getD 12 0 ≠ specCheckDigit1 ds then
         (false, "CNPJ inválido: primeiro dígito verificador incorreto")
       else if ds.getD 13 0 ≠ specCheckDigit2 ds then
         (false, "CNPJ inválido: segundo dígito verificador incorreto")
       else (true, "CNPJ válido")) := by
  simp only [cnpjCheck, specCheckDigit1, specCheckDigit2]
  rw [allEqual_drop_one, sum1_eq, sum2_eq, checkIf_eq, checkIf_eq]

/-- The validator core accepts exactly when the stripped digits number 14,
are not all equal, and both check digits match the spec's formulas. -/
theorem cnpjCheck_true_iff (ds : List Nat) :
    (cnpjCheck ds).1 = true ↔
      ds.length = 14 ∧ specAllEqual ds = false ∧
        ds.getD 12 0 = specCheckDigit1 ds ∧ ds.getD 13 0 = specCheckDigit2 ds := by
  rw [cnpjCheck_eq_specForm]
  split_ifs <;> simp_all

/-- A list of length 14 is an explicit 14-element list. -/
theorem length_fourteen_destruct (ds : List Nat) (h : ds.length = 14) :
    ∃ a b c d e f g h0 i j k l m n,
      ds = [a, b, c, d, e, f, g, h0, i, j, k, l, m, n] := by
  rcases ds with _ | ⟨a, ds⟩
  · simp at h
  rcases ds with _ | ⟨b, ds⟩
  · simp at h
  rcases ds with _ | ⟨c, ds⟩
  · simp at h
  rcases ds with _ | ⟨d, ds⟩
  · simp at h
  rcases ds with _ | ⟨e, ds⟩
  · simp at h
  rcases ds with _ | ⟨f, ds⟩
  · simp at h
  rcases ds with _ | ⟨g, ds⟩
  · simp at h
  rcases ds with _ | ⟨h0, ds⟩
  · simp at h
  rcases ds with _ | ⟨i, ds⟩
  · simp at h
  rcases ds with _ | ⟨j, ds⟩
  · simp at h
  rcases ds with _ | ⟨k, ds⟩
  · simp at h
  rcases ds with _ | ⟨l, ds⟩
  · simp at h
  rcases ds with _ | ⟨m, ds⟩
  · simp at h
  rcases ds with _ | ⟨n, ds⟩
  · simp at h
  rcases ds with _ | ⟨o, ds⟩
  · exact ⟨a, b, c, d, e, f, g, h0, i, j, k, l, m, n, rfl⟩
  · exfalso
    simp only [List.length_cons] at h
    omega

/-- C3: for every input string the checksum validator strips non-digit
characters, fails (with the corresponding message) when the stripped length
is not 14, when all 14 digits are equal, when digit 12 differs from the
first check digit computed from digits 0–11 with weights
[5,4,3,2,9,8,7,6,5,4,3,2], or when digit 13 differs from the second check
digit computed from digits 0–12 with weights [6,5,4,3,2,9,8,7,6,5,4,3,2]
(check = 0 if sum mod 11 < 2, else 11 − sum mod 11), and returns valid
otherwise; as a total Lean function it is pure and total by construction. -/
theorem validateCNPJFormat_meets_spec (s : String) :
    validateCNPJFormat s =
      (let ds := cnpjDigits s
       if ds.length ≠ 14 then (false, "CNPJ deve conter 14 dígitos")
       else if specAllEqual ds then (false, "CNPJ inválido: todos os dígitos são iguais")
       else if ds.getD 12 0 ≠ specCheckDigit1 ds then
         (false, "CNPJ inválido: primeiro dígito verificador incorreto")
       else if ds.getD 13 0 ≠ specCheckDigit2 ds then
         (false, "CNPJ inválido: segundo dígito verificador incorreto")
       else (true, "CNPJ válido")) := by
  exact cnpjCheck_eq_specForm (cnpjDigits s)

set_option linter.unusedVariables false in
/-- C4: a 14-digit tax ID accepted by the checksum validator becomes
invalid when either check digit (position 12 or 13) is replaced by any
other digit value. -/
theorem cnpjCheck_mutation_invalid (ds : List Nat) (dv : Nat)
    (h14 : ds.length = 14) (hd10 : dv < 10)
    (hvalid : (cnpjCheck ds).1 = true) :
    (dv ≠ ds.getD 12 0 → (cnpjCheck (ds.set 12 dv)).1 = false) ∧
    (dv ≠ ds.getD 13 0 → (cnpjCheck (ds.set 13 dv)).1 = false) := by
  obtain ⟨a, b, c, d, e, f, g, h0, i, j, k, l, m, n, rfl⟩ :=
    length_fourteen_destruct ds h14
  rw [cnpjCheck_true_iff] at hvalid
  obtain ⟨-, -, hc1, hc2⟩ := hvalid
  constructor
  · intro hne
    rw [Bool.eq_false_iff]
    intro habs
    rw [cnpjCheck_true_iff] at habs
    obtain ⟨-, -, hc1', -⟩ := habs
    have hset : List.set [a, b, c, d, e, f, g, h0, i, j, k, l, m, n] 12 dv
        = [a, b, c, d, e, f, g, h0, i, j, k, l, dv, n] := rfl
    rw [hset] at hc1'
    have e1 : ([a, b, c, d, e, f, g, h0, i, j, k, l, dv, n] : List Nat).getD 12 0 = dv := rfl
    have e2 : specCheckDigit1 [a, b, c, d, e, f, g, h0, i, j, k, l, dv, n]
        = specCheckDigit1 [a, b, c, d, e, f, g, h0, i, j, k, l, m, n] := rfl
    have e3 : ([a, b, c, d, e, f, g, h0, i, j, k, l, m, n] : List Nat).getD 12 0 = m := rfl
    rw [e1, e2, ← hc1, e3] at hc1'
    exact hne (by rw [e3]; exact hc1')
  · intro hne
    rw [Bool.eq_false_iff]
    intro habs
    rw [cnpjCheck_true_iff] at habs
    obtain ⟨-, -, -, hc2'⟩ := habs
    have hset : List.set [a, b, c, d, e, f, g, h0, i, j, k, l, m, n] 13 dv
        = [a, b, c, d, e, f, g, h0, i, j, k, l, m, dv] := rfl
    rw [hset] at hc2'
    have e1 : ([a, b, c, d, e, f, g, h0, i, j, k, l, m, dv] : List Nat).getD 13 0 = dv := rfl
    have e2 : specCheckDigit2 [a, b, c, d, e, f, g, h0, i, j, k, l, m, dv]
        = specCheckDigit2 [a, b, c, d, e, f, g, h0, i, j, k, l, m, n] := rfl
    have e3 : ([a, b, c, d, e, f, g, h0, i, j, k, l, m, n] : List Nat).getD 13 0 = n := rfl
    rw [e1, e2, ← hc2, e3] at hc2'
    exact hne (by rw [e3]; exact hc2')

/-- Witness for C4 at the checksum-correct digit list of `11222333000181`,
replacing each check digit by 0. -/
theorem cnpjCheck_mutation_invalid_witness :
    ([1, 1, 2, 2, 2, 3, 3, 3, 0, 0, 0, 1, 8, 1] : List Nat).length = 14 ∧
    (0 : Nat) < 10 ∧
    (cnpjCheck [1, 1, 2, 2, 2, 3, 3, 3, 0, 0, 0, 1, 8, 1]).1 = true ∧
    ((0 ≠ ([1, 1, 2, 2, 2, 3, 3, 3, 0, 0, 0, 1, 8, 1] : List Nat).getD 12 0 →
        (cnpjCheck (([1, 1, 2, 2, 2, 3, 3, 3, 0, 0, 0, 1, 8, 1] : List Nat).set 12 0)).1 = false) ∧
     (0 ≠ ([1, 1, 2, 2, 2, 3, 3, 3, 0, 0, 0, 1, 8, 1] : List Nat).getD 13 0 →
        (cnpjCheck (([1, 1, 2, 2, 2, 3, 3, 3, 0, 0, 0, 1, 8, 1] : List Nat).set 13 0)).1 = false)) :=
  ⟨by decide, by decide, by decide,
    cnpjCheck_mutation_invalid [1, 1, 2, 2, 2, 3, 3, 3, 0, 0, 0, 1, 8, 1] 0
      (by decide) (by decide) (by decide)⟩

/-- C5: with the limiter enabled, each admission call prunes the caller's
recorded instants to those strictly inside the trailing window (dropping
everything at or before `now − W`), rejects with `remaining = 0` when the
retained count reaches the limit, and otherwise records `now` and accepts
with `remaining = N −` the new count; concretely with N = 3 and W = 60,
three calls in the window are admitted, the fourth is rejected, and a call
after the window has fully elapsed is admitted again. -/
theorem rateLimit_sliding_window (rl : RateLimiter) (ip : String) (now : Int)
    (hen : rl.enabled = true) :
    (let retained := ((rl.ipLimits ip).getD []).filter (fun t => now - rl.windowLength < t)
     if retained.length ≥ rl.maxRequests then
       (RateLimit rl ip now).1.ipLimits ip = some retained ∧
         ∃ resetAt, (RateLimit rl ip now).2 = .rejected rl.maxRequests 0 resetAt
     else
       (RateLimit rl ip now).1.ipLimits ip = some (retained ++ [now]) ∧
         (RateLimit rl ip now).2 = .accepted rl.maxRequests
           ((rl.maxRequests : Int) - ((retained.length + 1 : Nat) : Int))) ∧
    rlStep1.2 = .accepted 3 2 ∧ rlStep2.2 = .accepted 3 1 ∧
    rlStep3.2 = .accepted 3 0 ∧
    rlStep4.2 = .rejected 3 0 30 ∧
    rlStep5.2 = .accepted 3 2 := by
  constructor
  · cases h : rl.ipLimits ip with
    | none =>
        simp only [h, Option.getD_none, List.filter_nil]
        by_cases hge : (([] : List Int)).length ≥ rl.maxRequests
        · have h0 : rl.maxRequests = 0 := by simpa using hge
          rw [if_pos hge]
          refine ⟨by simp [RateLimit, hen, h, h0], ⟨now - rl.windowLength + rl.windowLength,
            by simp [RateLimit, hen, h, h0]⟩⟩
        · have h0 : rl.maxRequests ≠ 0 := by simpa using hge
          rw [if_neg hge]
          refine ⟨by simp [RateLimit, hen, h, h0], by simp [RateLimit, hen, h, h0]⟩
    | some ts =>
        simp only [h, Option.getD_some]
        by_cases hge : (ts.filter (fun t => now - rl.windowLength < t)).length ≥ rl.maxRequests
        · have hle : rl.maxRequests ≤ (ts.filter (fun t => now - rl.windowLength < t)).length := hge
          rw [if_pos hge]
          refine ⟨by simp [RateLimit, hen, h, hle], ⟨now - rl.windowLength + rl.windowLength,
            by simp [RateLimit, hen, h, hle]⟩⟩
        · have hlt : ¬ rl.maxRequests ≤ (ts.filter (fun t => now - rl.windowLength < t)).length := hge
          rw [if_neg hge]
          refine ⟨by simp [RateLimit, hen, h, hlt], by simp [RateLimit, hen, h, hlt]⟩
  · exact ⟨by decide, by decide, by decide, by decide, by decide⟩

/-- Witness for C5 at a fresh 3-per-60 limiter, caller "w", instant 5. -/
theorem rateLimit_sliding_window_witness :
    rlDemo0.enabled = true ∧
    ((let retained := ((rlDemo0.ipLimits "w").getD []).filter
        (fun t => (5 : Int) - rlDemo0.windowLength < t)
      if retained.length ≥ rlDemo0.maxRequests then
        (RateLimit rlDemo0 "w" 5).1.ipLimits "w" = some retained ∧
          ∃ resetAt, (RateLimit rlDemo0 "w" 5).2 = .rejected rlDemo0.maxRequests 0 resetAt
      else
        (RateLimit rlDemo0 "w" 5).1.ipLimits "w" = some (retained ++ [(5 : Int)]) ∧
          (RateLimit rlDemo0 "w" 5).2 = .accepted rlDemo0.maxRequests
            ((rlDemo0.maxRequests : Int) - ((retained.length + 1 : Nat) : Int))) ∧
      rlStep1.2 = .accepted 3 2 ∧ rlStep2.2 = .accepted 3 1 ∧
      rlStep3.2 = .accepted 3 0 ∧
      rlStep4.2 = .rejected 3 0 30 ∧
      rlStep5.2 = .accepted 3 2) :=
  ⟨rfl, rateLimit_sliding_window rlDemo0 "w" 5 rfl⟩

/-- C6 is refuted by the code: at the fourth demo call (instant 30, window
60) the caller's retained instants are [0, 10, 20], so the spec's promised
`resetAt` is earliest-retained + W = 60, but the middleware reports
`resetAt` = (now − W) + W = now = 30. -/
theorem rateLimit_resetAt_bug :
    rlStep4.2 = RateOutcome.rejected 3 0 30 ∧
    rlStep4.1.ipLimits "10.0.0.1" = some [0, 10, 20] ∧
    ((0 : Int) + 60 = 60) ∧ ((30 : Int) ≠ 60) :=
  ⟨by decide, by decide, by decide, by decide⟩

/-- C7: registration fails with the duplicate-tax-ID error and leaves the
state unchanged whenever the CNPJ already belongs to a registration (of any
status) or to an active organization; and of two `RegisterNGO` calls
carrying the same CNPJ, the second always fails with a duplicate error. -/
theorem registerNGO_duplicate_cnpj (s : AdminService) (req1 req2 : NGORegistrationRequest)
    (n1 n2 : Int) (hcnpj : req1.cnpj = req2.cnpj) :
    (((∃ reg ∈ s.ngoRegistrations, reg.cnpj = req1.cnpj) ∨
        (∃ ngo ∈ s.ngos, ngo.cnpj = req1.cnpj)) →
      (RegisterNGO s req1 n1).1 = s ∧
        ((RegisterNGO s req1 n1).2 = .error "CNPJ já registrado no sistema" ∨
         (RegisterNGO s req1 n1).2 = .error "CNPJ já pertence a uma ONG ativa")) ∧
    ((RegisterNGO (RegisterNGO s req1 n1).1 req2 n2).2 = .error "CNPJ já registrado no sistema" ∨
     (RegisterNGO (RegisterNGO s req1 n1).1 req2 n2).2 = .error "CNPJ já pertence a uma ONG ativa") := by
  constructor
  · intro hdup
    by_cases h1 : s.ngoRegistrations.any (fun reg => reg.cnpj = req1.cnpj) = true
    · exact ⟨by simp [RegisterNGO, h1], Or.inl (by simp [RegisterNGO, h1])⟩
    · have h2 : s.ngos.any (fun ngo => ngo.cnpj = req1.cnpj) = true := by
        rcases hdup with ⟨reg, hreg, hc⟩ | ⟨ngo, hngo, hc⟩
        · exact absurd (List.any_eq_true.mpr ⟨reg, hreg, by simp [hc]⟩) h1
        · exact List.any_eq_true.mpr ⟨ngo, hngo, by simp [hc]⟩
      exact ⟨by simp [RegisterNGO, h1, h2], Or.inr (by simp [RegisterNGO, h1, h2])⟩
  · by_cases h1 : s.ngoRegistrations.any (fun reg => reg.cnpj = req1.cnpj) = true
    · left
      simp [RegisterNGO, h1, ← hcnpj]
    · by_cases h2 : s.ngos.any (fun ngo => ngo.cnpj = req1.cnpj) = true
      · right
        simp [RegisterNGO, h1, h2, ← hcnpj]
      · left
        simp [RegisterNGO, h1, h2, logAuditAction, List.any_append, ← hcnpj]

/-- Witness for C7: re-registering `demoRequest` on top of the state that
already contains it. -/
theorem registerNGO_duplicate_cnpj_witness :
    demoRequest.cnpj = demoRequest.cnpj ∧
    ((((∃ reg ∈ demoS1.ngoRegistrations, reg.cnpj = demoRequest.cnpj) ∨
        (∃ ngo ∈ demoS1.ngos, ngo.cnpj = demoRequest.cnpj)) →
      (RegisterNGO demoS1 demoRequest 5).1 = demoS1 ∧
        ((RegisterNGO demoS1 demoRequest 5).2 = .error "CNPJ já registrado no sistema" ∨
         (RegisterNGO demoS1 demoRequest 5).2 = .error "CNPJ já pertence a uma ONG ativa")) ∧
    ((RegisterNGO (RegisterNGO demoS1 demoRequest 5).1 demoRequest 6).2 =
        .error "CNPJ já registrado no sistema" ∨
     (RegisterNGO (RegisterNGO demoS1 demoRequest 5).1 demoRequest 6).2 =
        .error "CNPJ já pertence a uma ONG ativa")) :=
  ⟨rfl, registerNGO_duplicate_cnpj demoS1 demoRequest demoRequest 5 6 rfl⟩

/-- `ApproveNGO` always mints a non-empty ledger reference. -/
theorem generateMockTransactionHash_ne_empty (rand : Nat → Nat) :
    generateMockTransactionHash rand ≠ "" := by
  simp [generateMockTransactionHash, String.ext_iff]

/-- C8: `ApproveNGO` fails NotFound when the registration is absent, fails
the checksum precondition when the stored flag is invalid, fails the
document precondition when no document-store reference is present, and
otherwise mints a (non-empty) ledger reference, marks the registration
Approved with the comments stored, creates and returns an `NGO` copying
the registration's identity fields, and appends one audit entry recording
the `validando` → `aprovado` transition. -/
theorem approveNGO_spec (s : AdminService) (rid adminID : Nat) (comments : String)
    (rand : Nat → Nat) (now : Int) :
    (findRegWithIdx s.ngoRegistrations rid = none →
      ApproveNGO s rid adminID comments rand now = (s, .error "registro de ONG não encontrado")) ∧
    (∀ r i, findRegWithIdx s.ngoRegistrations rid = some (r, i) →
      (r.cnpjValid = false →
        ApproveNGO s rid adminID comments rand now = (s, .error "CNPJ não foi validado")) ∧
      (r.cnpjValid = true → r.documentsIPFS = "" →
        ApproveNGO s rid adminID comments rand now = (s, .error "documentos não foram enviados")) ∧
      (r.cnpjValid = true → r.documentsIPFS ≠ "" →
        ∃ ngo, (ApproveNGO s rid adminID comments rand now).2 = .ok ngo ∧
          ngo.name = r.name ∧ ngo.description = r.description ∧ ngo.category = r.category ∧
          ngo.cnpj = r.cnpj ∧ ngo.email = r.email ∧ ngo.phone = r.phone ∧
          ngo.address = r.address ∧ ngo.logoURL = r.logoURL ∧
          ngo.documentsIPFS = r.documentsIPFS ∧ ngo.responsibleID = r.responsibleID ∧
          ngo.blockchainRef = generateMockTransactionHash rand ∧ ngo.blockchainRef ≠ "" ∧
          (ApproveNGO s rid adminID comments rand now).1.ngos = s.ngos ++ [ngo] ∧
          (ApproveNGO s rid adminID comments rand now).1.ngoRegistrations =
            s.ngoRegistrations.set i { r with
              blockchainRef := generateMockTransactionHash rand
              status := NGOStatus.approved
              adminComments := comments
              updatedAt := now } ∧
          (ApproveNGO s rid adminID comments rand now).1.auditLogs =
            s.auditLogs ++ [{ id := s.auditLogs.length + 1, adminID := adminID,
                              action := "ngo_approved", entityType := "ngo",
                              entityID := s.ngos.length + 1,
                              previousState := "validando", newState := "aprovado",
                              comments := "aprovado", blockchainValid := false,
                              ipfsValid := false, validationErrors := [],
                              createdAt := now }])) := by
  refine ⟨fun h => by simp [ApproveNGO, h], fun r i h => ⟨?_, ?_, ?_⟩⟩
  · intro hv
    simp [ApproveNGO, h, hv]
  · intro hv hd
    simp [ApproveNGO, h, hv, hd]
  · intro hv hd
    refine ⟨
      { id := s.ngos.length + 1
        name := r.name
        description := r.description
        category := r.category
        cnpj := r.cnpj
        email := r.email
        phone := r.phone
        address := r.address
        logoURL := r.logoURL
        documentsIPFS := r.documentsIPFS
        blockchainRef := generateMockTransactionHash rand
        responsibleID := r.responsibleID
        createdAt := now
        updatedAt := now },
      ?_, rfl, rfl, rfl, rfl, rfl, rfl, rfl, rfl, rfl,
      rfl, rfl, generateMockTransactionHash_ne_empty rand, ?_, ?_, ?_⟩
    · simp [ApproveNGO, h, hv, hd]
    · simp [ApproveNGO, h, hv, hd, logAuditAction]
    · simp [ApproveNGO, h, hv, hd, logAuditAction]
    · simp [ApproveNGO, h, hv, hd, logAuditAction, NGOStatus.str]

/-- Witness for C8 at the demo state after upload: approval succeeds and
produces the organization with all copied fields. -/
theorem approveNGO_spec_witness :
    findRegWithIdx demoS3.ngoRegistrations 1 = some (demoReg3, 0) ∧
    demoReg3.cnpjValid = true ∧ demoReg3.documentsIPFS ≠ "" ∧
    (∃ ngo, (ApproveNGO demoS3 1 7 "tudo certo" zeroRand 3).2 = .ok ngo ∧
      ngo.name = demoReg3.name ∧ ngo.description = demoReg3.description ∧
      ngo.category = demoReg3.category ∧
      ngo.cnpj = demoReg3.cnpj ∧ ngo.email = demoReg3.email ∧ ngo.phone = demoReg3.phone ∧
      ngo.address = demoReg3.address ∧ ngo.logoURL = demoReg3.logoURL ∧
      ngo.documentsIPFS = demoReg3.documentsIPFS ∧ ngo.responsibleID = demoReg3.responsibleID ∧
      ngo.blockchainRef = generateMockTransactionHash zeroRand ∧ ngo.blockchainRef ≠ "" ∧
      (ApproveNGO demoS3 1 7 "tudo certo" zeroRand 3).1.ngos = demoS3.ngos ++ [ngo] ∧
      (ApproveNGO demoS3 1 7 "tudo certo" zeroRand 3).1.ngoRegistrations =
        demoS3.ngoRegistrations.set 0 { demoReg3 with
          blockchainRef := generateMockTransactionHash zeroRand
          status := NGOStatus.approved
          adminComments := "tudo certo"
          updatedAt := 3 } ∧
      (ApproveNGO demoS3 1 7 "tudo certo" zeroRand 3).1.auditLogs =
        demoS3.auditLogs ++ [{ id := demoS3.auditLogs.length + 1, adminID := 7,
                               action := "ngo_approved", entityType := "ngo",
                               entityID := demoS3.ngos.length + 1,
                               previousState := "validando", newState := "aprovado",
                               comments := "aprovado", blockchainValid := false,
                               ipfsValid := false, validationErrors := [],
                               createdAt := 3 }]) :=
  ⟨by decide, by decide, by decide,
    ((approveNGO_spec demoS3 1 7 "tudo certo" zeroRand 3).2 demoReg3 0 (by decide)).2.2
      (by decide) (by decide)⟩
/-- Characterization of the ledger-reference format check: it accepts
exactly the non-empty strings that start with the two-character `0x` prefix,
are 66 characters long, and whose remaining 64 characters are hexadecimal. -/
theorem verifyBlockchainReference_true_iff (r : String) :
    verifyBlockchainReference r = true ↔
      r ≠ "" ∧ r.data.take 2 = ['0', 'x'] ∧ r.length = 66 ∧
        (r.data.drop 2).all isHexChar = true := by
  have hlen : r.length = r.data.length := rfl
  unfold verifyBlockchainReference
  split_ifs with h1 h2 h3
  · simp [h1]
  · simp only [Bool.or_eq_true, decide_eq_true_eq] at h2
    constructor
    · intro h; simp at h
    · rintro ⟨-, htake, hl, -⟩
      rcases h2 with h2 | h2
      · omega
      · exact absurd htake (by simpa using h2)
  · constructor
    · intro h; simp at h
    · rintro ⟨-, -, hl, -⟩; exact absurd hl h3
  · push_neg at h2
    constructor
    · intro h
      simp only [Bool.and_eq_true, decide_eq_true_eq] at h
      exact ⟨h1, h.1.1, by omega, h.2⟩
    · rintro ⟨-, htake, hl, hall⟩
      simp only [Bool.and_eq_true, decide_eq_true_eq]
      refine ⟨⟨htake, ?_⟩, hall⟩
      rw [List.length_drop]
      omega

/-- C9: for an existing organization, the audit engine flags a stored
ledger reference that deviates from the `0x`+64-hex format (the format
being characterized exactly as the claim states it), returns a non-empty
validation-error list in that case, and appends exactly one audit log
entry on every verification of an existing organization regardless of the
outcome. -/
theorem auditEntity_ngo_verify (s : AdminService) (eid adminID : Nat) (now : Int) (ngo : NGO)
    (hfind : s.ngos.find? (fun n => n.id = eid) = some ngo) :
    (∀ r : String, verifyBlockchainReference r = true ↔
        r ≠ "" ∧ r.data.take 2 = ['0', 'x'] ∧ r.length = 66 ∧
          (r.data.drop 2).all isHexChar = true) ∧
    (AuditEntity s ⟨"ngo", eid⟩ adminID now).1.auditLogs.length = s.auditLogs.length + 1 ∧
    (verifyBlockchainReference ngo.blockchainRef = false →
      ∃ result, (AuditEntity s ⟨"ngo", eid⟩ adminID now).2 = .ok result ∧
        result.blockchainValid = false ∧ result.validationErrors ≠ []) := by
  refine ⟨verifyBlockchainReference_true_iff, ?_, ?_⟩
  · simp [AuditEntity, hfind, logAuditAction]
  · intro hb
    refine ⟨{ entityType := "ngo", entityID := eid, blockchainValid := false,
              ipfsValid := verifyIPFSReference ngo.documentsIPFS,
              blockchainRef := ngo.blockchainRef, ipfsRef := ngo.documentsIPFS,
              validationDate := now,
              validationErrors := "Referência na blockchain inválida ou não encontrada" ::
                (if verifyIPFSReference ngo.documentsIPFS then []
                 else ["Referência no IPFS inválida ou não encontrada"]) }, ?_, rfl, by simp⟩
    simp [AuditEntity, hfind, hb]

/-- Witness for C9 at a state holding one organization with the malformed
reference "deadbeef". -/
theorem auditEntity_ngo_verify_witness :
    badAuditState.ngos.find? (fun n => n.id = 1) = some badNGO ∧
    verifyBlockchainReference badNGO.blockchainRef = false ∧
    (∃ result, (AuditEntity badAuditState ⟨"ngo", 1⟩ 9 0).2 = .ok result ∧
       result.blockchainValid = false ∧ result.validationErrors ≠ []) ∧
    (AuditEntity badAuditState ⟨"ngo", 1⟩ 9 0).1.auditLogs.length =
      badAuditState.auditLogs.length + 1 :=
  ⟨by decide, by decide,
    (auditEntity_ngo_verify badAuditState 1 9 0 badNGO (by decide)).2.2 (by decide),
    (auditEntity_ngo_verify badAuditState 1 9 0 badNGO (by decide)).2.1⟩

/-- Every entry of the hexadecimal mock charset is a hex character. -/
theorem txCharset_getD_hex : ∀ m : Nat, m < 16 → isHexChar (txCharset.getD m 'a') = true := by
  decide

/-- C10: a mint-then-verify round trip always succeeds — every ledger
reference produced by the transaction-hash generator used by `ApproveNGO`
passes the ledger format check, and every document reference of the shape
assigned by `UploadNGODocuments` (`"Qm"` + 46 generated characters) passes
the file-store format check, for every random stream. -/
theorem minted_references_verify (rand1 rand2 : Nat → Nat) :
    verifyBlockchainReference (generateMockTransactionHash rand1) = true ∧
    verifyIPFSReference ("Qm" ++ generateMockHash rand2 46) = true := by
  constructor
  · rw [verifyBlockchainReference_true_iff]
    refine ⟨?_, ?_, ?_, ?_⟩
    · simp [String.ext_iff, generateMockTransactionHash]
    · simp [generateMockTransactionHash]
    · show (generateMockTransactionHash rand1).data.length = 66
      simp [generateMockTransactionHash]
    · simp only [generateMockTransactionHash]
      rw [List.all_eq_true]
      intro c hc
      simp only [List.drop_succ_cons, List.drop_zero, List.mem_map, List.mem_range] at hc
      obtain ⟨i, -, rfl⟩ := hc
      exact txCharset_getD_hex _ (Nat.mod_lt _ (by norm_num))
  · have hdata : ("Qm" ++ generateMockHash rand2 46).data
        = 'Q' :: 'm' :: (List.range 46).map (fun i => mockCharset.getD (rand2 i % 62) 'a') := by
      rw [String.data_append]
      rfl
    have hlen : ("Qm" ++ generateMockHash rand2 46).length = 48 := by
      rw [String.length_append]
      show 2 + (generateMockHash rand2 46).data.length = 48
      simp [generateMockHash]
    rw [verifyIPFSReference]
    rw [if_neg (by simp [String.ext_iff, hdata]), if_neg (by simp [hlen, hdata]),
      if_neg (by simp [hlen])]

/-- `findRegWithIdx` returns a member of the list, at an in-range index
where the list holds exactly that record. -/
theorem findRegWithIdx_spec (regs : List NGORegistration) (rid : Nat) :
    ∀ r i, findRegWithIdx regs rid = some (r, i) →
      r ∈ regs ∧ i < regs.length ∧ regs.getD i emptyReg = r := by
  induction regs with
  | nil => intro r i h; simp [findRegWithIdx] at h
  | cons x xs ih =>
    intro r i h
    rw [findRegWithIdx] at h
    by_cases hx : x.id = rid
    · rw [if_pos hx] at h
      simp only [Option.some.injEq, Prod.mk.injEq] at h
      obtain ⟨rfl, rfl⟩ := h
      exact ⟨List.mem_cons_self _ _, by simp, rfl⟩
    · rw [if_neg hx] at h
      cases hfx : findRegWithIdx xs rid with
      | none => rw [hfx] at h; simp at h
      | some p =>
        rw [hfx] at h
        simp only [Option.map_some', Option.some.injEq, Prod.mk.injEq] at h
        obtain ⟨h1, h2⟩ := h
        obtain ⟨hmem, hlt, hget⟩ := ih p.1 p.2 (by rw [hfx])
        subst h1 h2
        exact ⟨List.mem_cons_of_mem _ hmem, by simpa using hlt, by simpa using hget⟩

/-- Reading back the index just written by `List.set`. -/
theorem getD_set_self (l : List NGORegistration) (i : Nat) (u : NGORegistration)
    (h : i < l.length) : (l.set i u).getD i emptyReg = u := by
  rw [List.getD_eq_getElem?_getD, List.getElem?_set_self]
  · simp
  · simpa using h

/-- Setting an index to a record with the status already stored there
leaves the status column unchanged. -/
theorem map_status_set (regs : List NGORegistration) (u : NGORegistration) :
    ∀ i, i < regs.length → u.status = (regs.getD i emptyReg).status →
      (regs.set i u).map (fun reg => reg.status) = regs.map (fun reg => reg.status) := by
  induction regs with
  | nil => intro i hi; simp at hi
  | cons x xs ih =>
    intro i hi hs
    cases i with
    | zero => simp_all [List.set]
    | succ n =>
      simp only [List.set, List.map_cons]
      rw [ih n (by simpa using hi) (by simpa using hs)]

/-- C1 (amended): the four workflow operations never consult the current
lifecycle status — `UploadNGODocuments` leaves every record's status
unchanged, but `RejectNGO` sets any existing registration's status to
Rejected regardless of its current status (in particular Approved →
Rejected), and `ValidateCNPJOnline` moves any existing registration whose
stored checksum flag is valid to Validating (in particular Approved or
Rejected → Validating); so Approved and Rejected are not terminal. -/
theorem status_guards_absent (s : AdminService) (rid adminID : Nat)
    (reason : String) (file : List Nat) (rand : Nat → Nat) (now : Int)
    (r : NGORegistration) (i : Nat)
    (hfind : findRegWithIdx s.ngoRegistrations rid = some (r, i)) :
    ((UploadNGODocuments s rid file rand now).1.ngoRegistrations.map (fun reg => reg.status)
        = s.ngoRegistrations.map (fun reg => reg.status)) ∧
    (((RejectNGO s rid adminID reason now).1.ngoRegistrations.getD i emptyReg).status
        = NGOStatus.rejected) ∧
    (r.cnpjValid = true →
      ((ValidateCNPJOnline s rid now).1.ngoRegistrations.getD i emptyReg).status
        = NGOStatus.validating) := by
  obtain ⟨hmem, hlt, hget⟩ := findRegWithIdx_spec s.ngoRegistrations rid r i hfind
  refine ⟨?_, ?_, ?_⟩
  · by_cases hv : r.cnpjValid = true
    · simp only [UploadNGODocuments, hfind, hv, Bool.not_true, logAuditAction]
      exact map_status_set _ _ i hlt (by rw [hget])
    · have hv0 : r.cnpjValid = false := by revert hv; cases r.cnpjValid <;> simp
      simp [UploadNGODocuments, hfind, hv0]
  · simp only [RejectNGO, hfind, logAuditAction]
    rw [getD_set_self _ _ _ hlt]
  · intro hv
    simp only [ValidateCNPJOnline, hfind, hv, logAuditAction, if_true]
    rw [getD_set_self _ _ _ hlt]

/-- C1 is refuted by the code: the demo registration is Approved in
`demoS4`, yet the subsequent `RejectNGO` call moves it to Rejected, and a
subsequent `ValidateCNPJOnline` call would move it to Validating. -/
theorem approved_reopened_cex :
    (demoS4.ngoRegistrations.headD emptyReg).status = NGOStatus.approved ∧
    demoS5 = (RejectNGO demoS4 1 7 "revogado" 4).1 ∧
    (demoS5.ngoRegistrations.headD emptyReg).status = NGOStatus.rejected ∧
    ((ValidateCNPJOnline demoS4 1 9).1.ngoRegistrations.headD emptyReg).status
      = NGOStatus.validating :=
  ⟨by decide, rfl, by decide, by decide⟩

/-- Witness for C1 (amended) at the approved demo state. -/
theorem status_guards_absent_witness :
    findRegWithIdx demoS4.ngoRegistrations 1 = some (demoReg4, 0) ∧
    (((UploadNGODocuments demoS4 1 [] zeroRand 4).1.ngoRegistrations.map (fun reg => reg.status)
        = demoS4.ngoRegistrations.map (fun reg => reg.status)) ∧
     (((RejectNGO demoS4 1 7 "revogado" 4).1.ngoRegistrations.getD 0 emptyReg).status
        = NGOStatus.rejected) ∧
     (demoReg4.cnpjValid = true →
       ((ValidateCNPJOnline demoS4 1 4).1.ngoRegistrations.getD 0 emptyReg).status
        = NGOStatus.validating)) :=
  ⟨by decide, status_guards_absent demoS4 1 7 "revogado" [] zeroRand 4 demoReg4 0 (by decide)⟩

/-- C2 (amended): in every reachable state of the registration collection,
a record whose status is Approved has a non-empty ledger reference
(`ApproveNGO` is the only operation that sets one, always non-empty, and no
operation clears it); the converse direction of the claim fails, see the
counterexample. -/
theorem approved_has_ledger_ref (s : AdminService) (hs : Reachable s) :
    ∀ reg ∈ s.ngoRegistrations, reg.status = NGOStatus.approved → reg.blockchainRef ≠ "" := by
  induction hs with
  | init =>
    intro reg hmem
    simp [NewAdminService] at hmem
  | register s req now hr ih =>
    intro reg hmem hst
    by_cases h1 : s.ngoRegistrations.any (fun r0 => r0.cnpj = req.cnpj) = true
    · simp only [RegisterNGO, h1, if_true] at hmem
      exact ih reg hmem hst
    · by_cases h2 : s.ngos.any (fun n => n.cnpj = req.cnpj) = true
      · simp [RegisterNGO, h1, h2] at hmem
        exact ih reg hmem hst
      · simp only [RegisterNGO, h1, h2, logAuditAction, Bool.not_eq_true,
          Bool.false_eq_true, if_false] at hmem
        rw [List.mem_append] at hmem
        rcases hmem with hmem | hmem
        · exact ih reg hmem hst
        · simp only [List.mem_singleton] at hmem
          subst hmem
          simp at hst
  | validate s rid now hr ih =>
    intro reg hmem hst
    cases hfind : findRegWithIdx s.ngoRegistrations rid with
    | none =>
      simp only [ValidateCNPJOnline, hfind] at hmem
      exact ih reg hmem hst
    | some p =>
      obtain ⟨r, i⟩ := p
      by_cases hv : r.cnpjValid = true
      · simp only [ValidateCNPJOnline, hfind, hv, if_true, logAuditAction] at hmem
        rcases List.mem_or_eq_of_mem_set hmem with hmem | rfl
        · exact ih reg hmem hst
        · simp at hst
      · have hv0 : r.cnpjValid = false := by revert hv; cases r.cnpjValid <;> simp
        simp only [ValidateCNPJOnline, hfind, hv0, Bool.false_eq_true, if_false] at hmem
        exact ih reg hmem hst
  | upload s rid file rand now hr ih =>
    intro reg hmem hst
    cases hfind : findRegWithIdx s.ngoRegistrations rid with
    | none =>
      simp only [UploadNGODocuments, hfind] at hmem
      exact ih reg hmem hst
    | some p =>
      obtain ⟨r, i⟩ := p
      by_cases hv : r.cnpjValid = true
      · simp only [UploadNGODocuments, hfind, hv, Bool.not_true, Bool.false_eq_true, if_false,
          logAuditAction] at hmem
        rcases List.mem_or_eq_of_mem_set hmem with hmem | rfl
        · exact ih reg hmem hst
        · obtain ⟨hmem0, -, -⟩ := findRegWithIdx_spec s.ngoRegistrations rid r i hfind
          exact ih r hmem0 (by simpa using hst)
      · have hv0 : r.cnpjValid = false := by revert hv; cases r.cnpjValid <;> simp
        simp only [UploadNGODocuments, hfind, hv0, Bool.not_false, if_true] at hmem
        exact ih reg hmem hst
  | approve s rid aid c rand now hr ih =>
    intro reg hmem hst
    cases hfind : findRegWithIdx s.ngoRegistrations rid with
    | none =>
      simp only [ApproveNGO, hfind] at hmem
      exact ih reg hmem hst
    | some p =>
      obtain ⟨r, i⟩ := p
      by_cases hv : r.cnpjValid = true
      · by_cases hd : r.documentsIPFS = ""
        · simp only [ApproveNGO, hfind, hv, Bool.not_true, Bool.false_eq_true, if_false, hd,
            if_true] at hmem
          exact ih reg hmem hst
        · simp only [ApproveNGO, hfind, hv, Bool.not_true, Bool.false_eq_true, if_false, hd,
            logAuditAction] at hmem
          rcases List.mem_or_eq_of_mem_set hmem with hmem | rfl
          · exact ih reg hmem hst
          · exact generateMockTransactionHash_ne_empty rand
      · have hv0 : r.cnpjValid = false := by revert hv; cases r.cnpjValid <;> simp
        simp only [ApproveNGO, hfind, hv0, Bool.not_false, if_true] at hmem
        exact ih reg hmem hst
  | reject s rid aid rsn now hr ih =>
    intro reg hmem hst
    cases hfind : findRegWithIdx s.ngoRegistrations rid with
    | none =>
      simp only [RejectNGO, hfind] at hmem
      exact ih reg hmem hst
    | some p =>
      obtain ⟨r, i⟩ := p
      simp only [RejectNGO, hfind, logAuditAction] at hmem
      rcases List.mem_or_eq_of_mem_set hmem with hmem | rfl
      · exact ih reg hmem hst
      · simp at hst

/-- C2 is refuted by the code: the state reached by register → validate →
upload → approve → reject holds a record that is Rejected yet still
carries the non-empty ledger reference minted at approval. -/
theorem ledger_without_approved_cex :
    Reachable demoS5 ∧
    (demoS5.ngoRegistrations.headD emptyReg).status = NGOStatus.rejected ∧
    (demoS5.ngoRegistrations.headD emptyReg).blockchainRef ≠ "" := by
  refine ⟨?_, by decide, by decide⟩
  exact Reachable.reject _ 1 7 "revogado" 4
    (Reachable.approve _ 1 7 "tudo certo" zeroRand 3
      (Reachable.upload _ 1 [] zeroRand 2
        (Reachable.validate _ 1 1
          (Reachable.register _ demoRequest 0 Reachable.init))))

/-- Witness for C2 (amended) at the reachable approved demo state. -/
theorem approved_has_ledger_ref_witness :
    Reachable demoS4 ∧
    (∀ reg ∈ demoS4.ngoRegistrations,
      reg.status = NGOStatus.approved → reg.blockchainRef ≠ "") := by
  have h : Reachable demoS4 :=
    Reachable.approve _ 1 7 "tudo certo" zeroRand 3
      (Reachable.upload _ 1 [] zeroRand 2
        (Reachable.validate _ 1 1
          (Reachable.register _ demoRequest 0 Reachable.init)))
  exact ⟨h, approved_has_ledger_ref demoS4 h⟩

end Levitate
